import Mathlib

/-!
Verification of the recipe-be authentication / subscription core against its
natural-language specification.

The JavaScript sources are shallowly embedded: mongoose documents become
structures, collections become lists scanned with `List.find?` (mongoose
`findOne` returns the first match) and persisted with an id-keyed replace
(`save`) or an append (`create`).  Times are epoch milliseconds as `Nat`.
External collaborators (the jsonwebtoken library, the sha256 hash, the
Paystack gateway) are passed in as function or flag parameters.  HMAC-SHA512
is modelled as an ideal keyed hash: a digest is the (key, message) pair
itself, so distinct inputs give distinct digests, which makes the
collision-resistance idealisation explicit by construction.
-/

namespace RecipeBE

/-- `subscription.status` enum of user.model.js: only `free`, `premium` and
`cancelled` exist; the schema has no `past_due` value. -/
inductive UserSubStatus
  | free
  | premium
  | cancelled
deriving DecidableEq

/-- The `subscription` snapshot embedded in the user document
(user.model.js). -/
structure SubSnapshot where
  status : UserSubStatus
  plan : Option String
  startDate : Option Nat
  endDate : Option Nat
  paymentMethod : Option String
  autoRenew : Bool
deriving DecidableEq

/-- User document (user.model.js), restricted to the fields the claims are
about. -/
structure User where
  id : Nat
  email : String
  role : String
  subscription : SubSnapshot
  emailVerified : Bool
  emailVerificationToken : Option String
  emailVerificationExpire : Option Nat
  isActive : Bool
  lastActive : Option Nat
deriving DecidableEq

/-- Ledger status strings written by payment.service.js. -/
inductive LedgerStatus
  | active
  | cancelled
deriving DecidableEq

/-- Modelled from the spec: subscription.model.js is not among the sources;
the fields are exactly those written and read by payment.service.js
(`user`, `planId`, `subscriptionCode`, `status`, `amount`, `currency`,
`startDate`, `nextPaymentDate`, `cancelledAt`, `emailToken`) plus the
document id, matching section 3 of the spec. -/
structure LedgerRecord where
  id : Nat
  user : Nat
  planId : String
  subscriptionCode : String
  status : LedgerStatus
  amount : Nat
  currency : String
  startDate : Nat
  nextPaymentDate : Nat
  cancelledAt : Option Nat
  emailToken : Option String
deriving DecidableEq

/-- The document store: the user collection and the subscription ledger
collection. -/
structure DB where
  users : List User
  subs : List LedgerRecord
deriving DecidableEq

/-- `User.findOne({ email })`. -/
def findOneUserByEmail (db : DB) (e : String) : Option User :=
  db.users.find? (fun u => u.email == e)

/-- `User.findById(id)`. -/
def findUserById (db : DB) (i : Nat) : Option User :=
  db.users.find? (fun u => u.id == i)

/-- `user.save()`: persist the document, replacing the stored document with
the same id. -/
def saveUser (db : DB) (u : User) : DB :=
  { db with users := db.users.map (fun w => if w.id == u.id then u else w) }

/-- `Subscription.findOne({ subscriptionCode })`. -/
def findOneSubByCode (db : DB) (code : String) : Option LedgerRecord :=
  db.subs.find? (fun s => s.subscriptionCode == code)

/-- `Subscription.findOne({ user, status: 'active' })`. -/
def findOneActiveSubByUser (db : DB) (uid : Nat) : Option LedgerRecord :=
  db.subs.find? (fun s => s.user == uid && s.status == LedgerStatus.active)

/-- `subscription.save()`: persist the ledger document by id. -/
def saveSub (db : DB) (s : LedgerRecord) : DB :=
  { db with subs := db.subs.map (fun w => if w.id == s.id then s else w) }

/-- `Subscription.create(...)`: insert a new ledger document. -/
def createSub (db : DB) (s : LedgerRecord) : DB :=
  { db with subs := db.subs ++ [s] }

/-- Payload of a `charge.success` event as destructured by
`handleChargeSuccess`: `reference`, `customer.email`, `amount`,
`metadata.subscription`.  `paidAt` is the payload timestamp Paystack
delivers; the code never reads it. -/
structure ChargeData where
  reference : String
  customerEmail : String
  amount : Nat
  metadataSubscription : Bool
  paidAt : Nat
deriving DecidableEq

/-- Payload of a `subscription.create` event as destructured by
`handleSubscriptionCreate`: `customer.email`, `plan.interval`,
`subscription_code` (destructured but unused), `next_payment_date`.
`createdAt` is the payload timestamp; the code never reads it. -/
structure SubCreateData where
  customerEmail : String
  planInterval : String
  subscriptionCode : String
  nextPaymentDate : Nat
  createdAt : Nat
deriving DecidableEq

/-- Payload of a `subscription.disable` event: `subscription_code`.
`disabledAtTs` is the payload timestamp; the code never reads it. -/
structure DisableData where
  subscriptionCode : String
  disabledAtTs : Nat
deriving DecidableEq

/-- Payload of an `invoice.payment_failed` event as destructured by
`handlePaymentFailed`: `customer.email` and `subscription`. -/
structure FailData where
  customerEmail : String
  subscriptionCode : String
deriving DecidableEq

/-- A webhook event as dispatched on by `processWebhook`. -/
inductive WebhookEvent
  | chargeSuccess (d : ChargeData)
  | subscriptionCreate (d : SubCreateData)
  | subscriptionDisable (d : DisableData)
  | invoicePaymentFailed (d : FailData)
  | unrecognized (name : String)
deriving DecidableEq

/-- Count of persistence calls performed while handling one or more events:
user-snapshot saves and ledger writes. -/
structure Writes where
  userSaves : Nat
  ledgerSaves : Nat
deriving DecidableEq

/-- `handleChargeSuccess` (payment.service.js): when the metadata marks a
subscription payment, look the user up by `customer.email` and set
`subscription.status = 'premium'`; otherwise only log.  No timestamp in the
payload is consulted. -/
def handleChargeSuccess (d : ChargeData) (db : DB) : DB × Writes :=
  if d.metadataSubscription then
    match findOneUserByEmail db d.customerEmail with
    | some u =>
        (saveUser db { u with subscription := { u.subscription with status := .premium } },
         ⟨1, 0⟩)
    | none => (db, ⟨0, 0⟩)
  else (db, ⟨0, 0⟩)

/-- The user snapshot written by `handleSubscriptionCreate`: status premium,
plan from the payload, `startDate = new Date()` (the processing time),
`endDate = next_payment_date`, paystack, autoRenew. -/
def subCreateSnapshot (now : Nat) (d : SubCreateData) : SubSnapshot :=
  { status := .premium
    plan := some d.planInterval
    startDate := some now
    endDate := some d.nextPaymentDate
    paymentMethod := some "paystack"
    autoRenew := true }

/-- `handleSubscriptionCreate` (payment.service.js): look the user up by
`customer.email` and overwrite the whole subscription snapshot.  No ledger
record is created and no idempotency marker is consulted. -/
def handleSubscriptionCreate (now : Nat) (d : SubCreateData) (db : DB) : DB × Writes :=
  match findOneUserByEmail db d.customerEmail with
  | some u => (saveUser db { u with subscription := subCreateSnapshot now d }, ⟨1, 0⟩)
  | none => (db, ⟨0, 0⟩)

/-- `handleSubscriptionDisable` (payment.service.js): find the ledger record
by `subscription_code`, set it to `cancelled` and save it, then set the
user's snapshot status to `'free'` (not `'cancelled'`) with
`autoRenew = false`. -/
def handleSubscriptionDisable (d : DisableData) (db : DB) : DB × Writes :=
  match findOneSubByCode db d.subscriptionCode with
  | none => (db, ⟨0, 0⟩)
  | some s =>
      let db1 := saveSub db { s with status := .cancelled }
      match findUserById db1 s.user with
      | some u =>
          (saveUser db1
             { u with subscription := { u.subscription with status := .free, autoRenew := false } },
           ⟨1, 1⟩)
      | none => (db1, ⟨0, 1⟩)

/-- `handlePaymentFailed` (payment.service.js): logs the failure and returns;
no user or ledger state is written. -/
def handlePaymentFailed (_d : FailData) (db : DB) : DB × Writes :=
  (db, ⟨0, 0⟩)

/-- `processWebhook` (payment.service.js): dispatch on the event name; the
default branch only logs.  There is no idempotency marker and no ordering
guard anywhere on this path. -/
def processWebhook (now : Nat) (e : WebhookEvent) (db : DB) : DB × Writes :=
  match e with
  | .chargeSuccess d => handleChargeSuccess d db
  | .subscriptionCreate d => handleSubscriptionCreate now d db
  | .subscriptionDisable d => handleSubscriptionDisable d db
  | .invoicePaymentFailed d => handlePaymentFailed d db
  | .unrecognized _ => (db, ⟨0, 0⟩)

/-- Deliver the same event `n` times in sequence, accumulating the write
counts. -/
def processWebhookN (now : Nat) (e : WebhookEvent) (db : DB) : Nat → DB × Writes
  | 0 => (db, ⟨0, 0⟩)
  | n + 1 =>
      let r1 := processWebhook now e db
      let r2 := processWebhookN now e r1.1 n
      (r2.1, ⟨r1.2.userSaves + r2.2.userSaves, r1.2.ledgerSaves + r2.2.ledgerSaves⟩)

/-- The fields of the Paystack subscription resource that `subscribeUser`
reads out of the gateway response: `plan.interval`, `plan.amount`,
`plan.currency`, `subscription_code`, `createdAt`, `next_payment_date`. -/
structure GatewaySubResp where
  planInterval : String
  planAmount : Nat
  planCurrency : String
  subscriptionCode : String
  createdAt : Nat
  nextPaymentDate : Nat
deriving DecidableEq

/-- The user snapshot written by `subscribeUser` from the gateway
response. -/
def subscribeSnapshot (resp : GatewaySubResp) : SubSnapshot :=
  { status := .premium
    plan := some resp.planInterval
    startDate := some resp.createdAt
    endDate := some resp.nextPaymentDate
    paymentMethod := some "paystack"
    autoRenew := true }

/-- The ledger record created by `subscribeUser` from the gateway response
(`amount: subscription.plan.amount / 100`). -/
def subscribeLedger (newId uid : Nat) (planCode : String) (resp : GatewaySubResp) :
    LedgerRecord :=
  { id := newId
    user := uid
    planId := planCode
    subscriptionCode := resp.subscriptionCode
    status := .active
    amount := resp.planAmount / 100
    currency := resp.planCurrency
    startDate := resp.createdAt
    nextPaymentDate := resp.nextPaymentDate
    cancelledAt := none
    emailToken := none }

/-- `subscribeUser` (payment.service.js).  The steps run in sequence with no
transaction: find the user (missing user throws); call the gateway
(`getOrCreateCustomer` + the subscription POST, collapsed into the
`gatewayOk` flag and the `resp` data); overwrite the user snapshot and
`user.save()` (`userSaveOk` — a failing save throws before persisting);
then `Subscription.create` (`createOk`).  Every throw is caught and
rethrown as `'Subscription failed'`, leaving whatever was already persisted
in place.  The result pairs the outcome with the resulting store state. -/
def subscribeUser (gatewayOk userSaveOk createOk : Bool) (resp : GatewaySubResp)
    (newId uid : Nat) (planCode : String) (db : DB) : Except String Unit × DB :=
  match findUserById db uid with
  | none => (.error "Subscription failed", db)
  | some u =>
      if !gatewayOk then (.error "Subscription failed", db)
      else if !userSaveOk then (.error "Subscription failed", db)
      else
        let db1 := saveUser db { u with subscription := subscribeSnapshot resp }
        if !createOk then (.error "Subscription failed", db1)
        else (.ok (), createSub db1 (subscribeLedger newId uid planCode resp))

/-- The cancelled ledger record written by `cancelSubscription`. -/
def cancelledLedger (now : Nat) (s : LedgerRecord) : LedgerRecord :=
  { s with status := .cancelled, cancelledAt := some now }

/-- The user snapshot after `cancelSubscription`. -/
def cancelledUserSnap (u : User) : User :=
  { u with subscription := { u.subscription with status := .cancelled, autoRenew := false } }

/-- `cancelSubscription` (payment.service.js).  Sequential, untransacted:
find the active ledger record (none throws); POST
`/subscription/disable` to the gateway (`gatewayOk`); set the ledger record
to cancelled and `subscription.save()` (`ledgerSaveOk`); then look the user
up and set the snapshot to cancelled with `user.save()` (`userSaveOk`).
Every throw is caught and rethrown as `'Failed to cancel subscription'`,
leaving whatever was already persisted in place. -/
def cancelSubscription (gatewayOk ledgerSaveOk userSaveOk : Bool) (now uid : Nat)
    (db : DB) : Except String Unit × DB :=
  match findOneActiveSubByUser db uid with
  | none => (.error "Failed to cancel subscription", db)
  | some s =>
      if !gatewayOk then (.error "Failed to cancel subscription", db)
      else if !ledgerSaveOk then (.error "Failed to cancel subscription", db)
      else
        let db1 := saveSub db (cancelledLedger now s)
        match findUserById db1 uid with
        | none => (.error "Failed to cancel subscription", db1)
        | some u =>
            if !userSaveOk then (.error "Failed to cancel subscription", db1)
            else (.ok (), saveUser db1 (cancelledUserSnap u))

/-- An HMAC-SHA512 digest, modelled as an ideal keyed hash: the digest is
the (key, message) pair itself, so two digests are equal exactly when key
and message agree.  This makes the collision-resistance idealisation of the
real hash explicit by construction. -/
structure Digest where
  key : String
  msg : String
deriving DecidableEq

/-- `crypto.createHmac('sha512', key).update(msg).digest('hex')` under the
ideal-hash model. -/
def hmacSHA512 (key msg : String) : Digest :=
  Digest.mk key msg

/-- Model of `JSON.stringify` applied to the parsed webhook body: a concrete
serialization of the payload structure.  Only its concreteness matters; the
code signs this re-serialization of the parsed body, not the raw request
bytes. -/
def stringifyPayload (p : WebhookEvent) : String :=
  match p with
  | .chargeSuccess d =>
      "event=charge.success;reference=" ++ d.reference ++ ";email=" ++ d.customerEmail
        ++ ";amount=" ++ toString d.amount
        ++ ";metasub=" ++ (if d.metadataSubscription then "1" else "0")
        ++ ";paidAt=" ++ toString d.paidAt
  | .subscriptionCreate d =>
      "event=subscription.create;email=" ++ d.customerEmail ++ ";interval="
        ++ d.planInterval ++ ";code=" ++ d.subscriptionCode
        ++ ";next=" ++ toString d.nextPaymentDate ++ ";createdAt=" ++ toString d.createdAt
  | .subscriptionDisable d =>
      "event=subscription.disable;code=" ++ d.subscriptionCode
        ++ ";ts=" ++ toString d.disabledAtTs
  | .invoicePaymentFailed d =>
      "event=invoice.payment_failed;email=" ++ d.customerEmail
        ++ ";code=" ++ d.subscriptionCode
  | .unrecognized n => "event=" ++ n

/-- `verifyWebhook` (payment.service.js): recompute
`HMAC-SHA512(secret, JSON.stringify(body))` over the already-parsed body and
compare to the signature header with plain equality. -/
def verifyWebhook (secret : String) (body : WebhookEvent) (signature : Digest) : Bool :=
  hmacSHA512 secret (stringifyPayload body) == signature

/-- A webhook HTTP request: the exact raw body bytes, the result of the
`express.json` body parser on those bytes (`none` when the body is not
valid JSON, in which case express rejects the request before any route
handler runs), and the signature header. -/
structure WebhookRequest where
  raw : String
  parsed : Option WebhookEvent
  sig : Digest
deriving DecidableEq

/-- Outcome of one webhook HTTP delivery. -/
inductive WebhookOutcome
  | badRequestParse
  | signatureError
  | processedOk
deriving DecidableEq

/-- Modelled from the spec: the webhook route handler (the payment
controller file is not among the sources).  `express.json` (server.js) has
already parsed the body when the handler runs; a malformed body is rejected
by the parser itself.  The handler calls `verifyWebhook` on the parsed body
and rejects with a signature error on mismatch, otherwise runs
`processWebhook`. -/
def webhookHandle (secret : String) (now : Nat) (req : WebhookRequest) (db : DB) :
    WebhookOutcome × DB :=
  match req.parsed with
  | none => (.badRequestParse, db)
  | some body =>
      if verifyWebhook secret body req.sig then (.processedOk, (processWebhook now body db).1)
      else (.signatureError, db)

/-- The Session Cache: user id to the single stored refresh token. -/
def Cache : Type := Nat → Option String

/-- Modelled from the spec: `authService.storeRefreshToken` (auth.service.js
is not among the sources) — Session Cache `put`, an atomic upsert that
overwrites any existing entry for the user id. -/
def storeRefreshToken (uid : Nat) (tok : String) (c : Cache) : Cache :=
  fun i => if i = uid then some tok else c i

/-- Modelled from the spec: `authService.getRefreshToken` — Session Cache
`get`, returning the entry or absent. -/
def getRefreshToken (uid : Nat) (c : Cache) : Option String :=
  c uid

/-- Modelled from the spec: `authService.removeRefreshToken` — Session Cache
`remove`, used on logout. -/
def removeRefreshToken (uid : Nat) (c : Cache) : Cache :=
  fun i => if i = uid then none else c i

/-- Outcome of `POST /auth/refresh`. -/
inductive RefreshOutcome
  | badRequest400
  | jwtError
  | invalidRefresh401
  | userNotFound404
  | ok (accessToken : String)
deriving DecidableEq

/-- `refreshToken` (auth.controller.js): require a body token; `jwt.verify`
it against the refresh secret (failure throws out of the handler); load the
stored token for the decoded id from the Session Cache; missing entry or a
token not equal to the presented one is rejected 401 `'Invalid refresh
token'`; then load the user (404 when missing) and mint a new access token.
The cache is returned unchanged: the handler never writes it. -/
def refreshTokenController (jwtVerifyRefresh : String → Option Nat)
    (signAccess : User → String) (db : DB) (c : Cache) (body : Option String) :
    RefreshOutcome × Cache :=
  match body with
  | none => (.badRequest400, c)
  | some tok =>
      match jwtVerifyRefresh tok with
      | none => (.jwtError, c)
      | some uid =>
          match getRefreshToken uid c with
          | none => (.invalidRefresh401, c)
          | some stored =>
              if stored = tok then
                match findUserById db uid with
                | none => (.userNotFound404, c)
                | some u => (.ok (signAccess u), c)
              else (.invalidRefresh401, c)

/-- `logout` (auth.controller.js): remove the refresh token for the
authenticated user from the cache. -/
def logoutController (uid : Nat) (c : Cache) : Cache :=
  removeRefreshToken uid c

/-- The refresh-token side effect of `login`/`register`
(auth.controller.js): store the freshly minted refresh token, overwriting
the previous entry. -/
def loginStoresToken (uid : Nat) (tok : String) (c : Cache) : Cache :=
  storeRefreshToken uid tok c

/-- Model of `authorization.split(' ')` — JS `String.prototype.split` with
a single-space separator, keeping empty fields — on the character list. -/
def splitSpaces (cs : List Char) : List (List Char) :=
  match cs with
  | [] => [[]]
  | ch :: rest =>
      match splitSpaces rest with
      | [] => [[ch]]
      | w :: ws => if ch = ' ' then [] :: w :: ws else (ch :: w) :: ws

/-- Model of `authorization.startsWith('Bearer')`. -/
def startsWithBearer (h : String) : Bool :=
  h.toList.take 6 == "Bearer".toList

/-- Bearer-token extraction shared by `protect` and `optionalAuth`
(auth.middleware.js): the header must start with `Bearer`; the token is
`authorization.split(' ')[1]` (absent when there is no second field). -/
def extractBearer (authHeader : Option String) : Option String :=
  match authHeader with
  | none => none
  | some h =>
      if startsWithBearer h then ((splitSpaces h.toList).map String.mk)[1]? else none

/-- Outcome of the `protect` middleware. -/
inductive ProtectOutcome
  | notAuthorized401
  | userNotFound404
  | deactivated401
  | ok (u : User)
deriving DecidableEq

/-- `protect` (auth.middleware.js): no token or a failing `jwt.verify` is
401; a missing user is 404; an inactive user is rejected 401
`'User account is deactivated'`; otherwise `lastActive` is updated and
saved and the request proceeds with the user attached. -/
def protect (jwtVerifyAccess : String → Option Nat) (now : Nat) (db : DB)
    (authHeader : Option String) : ProtectOutcome × DB :=
  match extractBearer authHeader with
  | none => (.notAuthorized401, db)
  | some tok =>
      match jwtVerifyAccess tok with
      | none => (.notAuthorized401, db)
      | some uid =>
          match findUserById db uid with
          | none => (.userNotFound404, db)
          | some u =>
              if !u.isActive then (.deactivated401, db)
              else
                (.ok { u with lastActive := some now },
                 saveUser db { u with lastActive := some now })

/-- `optionalAuth` (auth.middleware.js): always proceeds; when a token is
present and verifies, `req.user` is whatever `User.findById` returns —
there is no `isActive` check; on any verify error `req.user` is null.  The
returned value is the `req.user` the request proceeds with. -/
def optionalAuth (jwtVerifyAccess : String → Option Nat) (db : DB)
    (authHeader : Option String) : Option User :=
  match extractBearer authHeader with
  | none => none
  | some tok =>
      match jwtVerifyAccess tok with
      | none => none
      | some uid => findUserById db uid

/-- `generateEmailVerificationToken` (user.model.js): draw a random hex
value (`randHex`, the randomness supplied by the collaborator), store only
its sha256 hash on the document with a 24-hour expiry, and return the
cleartext.  The pair is (returned cleartext, updated document). -/
def generateEmailVerificationToken (sha256 : String → String) (randHex : String)
    (now : Nat) (u : User) : String × User :=
  (randHex,
   { u with
      emailVerificationToken := some (sha256 randHex)
      emailVerificationExpire := some (now + 24 * 60 * 60 * 1000) })

/-- The mongoose filter of `verifyEmail` (auth.controller.js):
`emailVerificationToken` equals the sha256 of the presented token and
`emailVerificationExpire` is strictly greater than now. -/
def verifyEmailMatch (hashed : String) (now : Nat) (u : User) : Bool :=
  u.emailVerificationToken == some hashed
    && (match u.emailVerificationExpire with
        | some e => decide (now < e)
        | none => false)

/-- Outcome of `GET /auth/verify-email/:token`. -/
inductive VerifyEmailOutcome
  | invalidOrExpired400
  | ok
deriving DecidableEq

/-- `verifyEmail` (auth.controller.js): hash the presented token, find a
user with that stored hash and an unexpired expiry; set
`emailVerified = true` and clear the stored hash and expiry, then save. -/
def verifyEmail (sha256 : String → String) (now : Nat) (tokenParam : String)
    (db : DB) : VerifyEmailOutcome × DB :=
  match db.users.find? (verifyEmailMatch (sha256 tokenParam) now) with
  | none => (.invalidOrExpired400, db)
  | some u =>
      (.ok,
       saveUser db
         { u with
            emailVerified := true
            emailVerificationToken := none
            emailVerificationExpire := none })

/-- Scanning a collection after an id-keyed replace: if the scan found `a`,
the replace turns `a` into `v`, every entry is either untouched or becomes
`v`, and `v` still satisfies the filter, then the scan over the updated
collection finds `v`. -/
theorem find?_map_update {α : Type} (q : α → Bool) (g : α → α) (v : α)
    (hqv : q v = true) (hg : ∀ x, g x = x ∨ g x = v) :
    ∀ (l : List α) (a : α), l.find? q = some a → g a = v →
      (l.map g).find? q = some v := by
  intro l
  induction l with
  | nil => intro a h _; simp at h
  | cons x t ih =>
      intro a h hga
      cases hx : q x with
      | true =>
          rw [List.find?_cons_of_pos _ hx] at h
          have hax : a = x := by
            injection h with h2
            exact h2.symm
          subst hax
          rw [List.map_cons, List.find?_cons_of_pos _ (by rw [hga]; exact hqv), hga]
      | false =>
          rw [List.find?_cons_of_neg _ (by simp [hx])] at h
          rcases hg x with hx1 | hx1
          · rw [List.map_cons, hx1, List.find?_cons_of_neg _ (by simp [hx])]
            exact ih a h hga
          · rw [List.map_cons, hx1, List.find?_cons_of_pos _ hqv]

/-- After `saveUser db v` for a `v` sharing id and email with the user the
email lookup found, the email lookup finds `v`. -/
theorem findOneUserByEmail_saveUser (db : DB) (e : String) (u v : User)
    (h : findOneUserByEmail db e = some u) (hid : v.id = u.id)
    (he : v.email = u.email) :
    findOneUserByEmail (saveUser db v) e = some v := by
  have h' : db.users.find? (fun w => w.email == e) = some u := h
  have hqu := List.find?_some h'
  show (db.users.map fun w => if w.id == v.id then v else w).find?
      (fun w => w.email == e) = some v
  refine find?_map_update _ _ v ?_ ?_ db.users u h' ?_
  · show (v.email == e) = true
    rw [he]; exact hqu
  · intro x
    by_cases hxx : (x.id == v.id) = true
    · right; simp [hxx]
    · left; simp [hxx]
  · show (if u.id == v.id then v else u) = v
    simp [hid]

/-- After `saveUser db v` for a `v` sharing its id with the user the id
lookup found, the id lookup finds `v`. -/
theorem findUserById_saveUser (db : DB) (i : Nat) (u v : User)
    (h : findUserById db i = some u) (hid : v.id = u.id) :
    findUserById (saveUser db v) i = some v := by
  have h' : db.users.find? (fun w => w.id == i) = some u := h
  have hqu := List.find?_some h'
  show (db.users.map fun w => if w.id == v.id then v else w).find?
      (fun w => w.id == i) = some v
  refine find?_map_update _ _ v ?_ ?_ db.users u h' ?_
  · show (v.id == i) = true
    rw [hid]; exact hqu
  · intro x
    by_cases hxx : (x.id == v.id) = true
    · right; simp [hxx]
    · left; simp [hxx]
  · show (if u.id == v.id then v else u) = v
    simp [hid]

/-- After `saveSub db t` for a `t` sharing id and code with the record the
code lookup found, the code lookup finds `t`. -/
theorem findOneSubByCode_saveSub (db : DB) (code : String) (s t : LedgerRecord)
    (h : findOneSubByCode db code = some s) (hid : t.id = s.id)
    (hc : t.subscriptionCode = s.subscriptionCode) :
    findOneSubByCode (saveSub db t) code = some t := by
  have h' : db.subs.find? (fun w => w.subscriptionCode == code) = some s := h
  have hqs := List.find?_some h'
  show (db.subs.map fun w => if w.id == t.id then t else w).find?
      (fun w => w.subscriptionCode == code) = some t
  refine find?_map_update _ _ t ?_ ?_ db.subs s h' ?_
  · show (t.subscriptionCode == code) = true
    rw [hc]; exact hqs
  · intro x
    by_cases hxx : (x.id == t.id) = true
    · right; simp [hxx]
    · left; simp [hxx]
  · show (if s.id == t.id then t else s) = t
    simp [hid]

/-- `saveSub` does not touch the user collection. -/
theorem findUserById_saveSub (db : DB) (s : LedgerRecord) (i : Nat) :
    findUserById (saveSub db s) i = findUserById db i := rfl

/-- `saveSub` does not touch the user collection (email lookup). -/
theorem findOneUserByEmail_saveSub (db : DB) (s : LedgerRecord) (e : String) :
    findOneUserByEmail (saveSub db s) e = findOneUserByEmail db e := rfl

/-- Behaviour of `handleChargeSuccess` on a subscription-tagged charge for
an existing user: the snapshot status is overwritten to premium,
unconditionally — no payload timestamp is consulted. -/
theorem handleChargeSuccess_premium (c : ChargeData) (db : DB) (u : User)
    (hmeta : c.metadataSubscription = true)
    (h : findOneUserByEmail db c.customerEmail = some u) :
    handleChargeSuccess c db =
      (saveUser db { u with subscription := { u.subscription with status := .premium } },
       ⟨1, 0⟩) := by
  simp [handleChargeSuccess, hmeta, h]

/-- Behaviour of `handleSubscriptionCreate` for an existing user. -/
theorem handleSubscriptionCreate_eq (now : Nat) (d : SubCreateData) (db : DB) (u : User)
    (h : findOneUserByEmail db d.customerEmail = some u) :
    handleSubscriptionCreate now d db =
      (saveUser db { u with subscription := subCreateSnapshot now d }, ⟨1, 0⟩) := by
  simp [handleSubscriptionCreate, h]

/-- Behaviour of `handleSubscriptionDisable` when ledger record and user
exist: ledger goes to cancelled, the user snapshot goes to `'free'`. -/
theorem handleSubscriptionDisable_eq (d : DisableData) (db : DB) (s : LedgerRecord) (u : User)
    (hsub : findOneSubByCode db d.subscriptionCode = some s)
    (hu : findUserById db s.user = some u) :
    handleSubscriptionDisable d db =
      (saveUser (saveSub db { s with status := .cancelled })
         { u with subscription := { u.subscription with status := .free, autoRenew := false } },
       ⟨1, 1⟩) := by
  simp [handleSubscriptionDisable, hsub, findUserById_saveSub, hu]

/-- Decidable equality for the outcome type of the payment-service
operations, used to evaluate them at concrete inputs. -/
instance : DecidableEq (Except String Unit) := fun x y =>
  match x, y with
  | .error a, .error b =>
      if h : a = b then .isTrue (by rw [h])
      else .isFalse (fun he => h (Except.error.inj he))
  | .error _, .ok _ => .isFalse (fun he => Except.noConfusion he)
  | .ok _, .error _ => .isFalse (fun he => Except.noConfusion he)
  | .ok a, .ok b => .isTrue (by cases a; cases b; rfl)

/-- A premium user fixture. -/
def premiumSnap : SubSnapshot :=
  ⟨.premium, some "monthly", some 10, some 1000, some "paystack", true⟩

/-- A free (default) snapshot fixture. -/
def freeSnap : SubSnapshot :=
  ⟨.free, none, none, none, none, true⟩

/-- Premium user fixture. -/
def alice : User :=
  ⟨1, "a@x.com", "user", premiumSnap, true, none, none, true, none⟩

/-- Active ledger record fixture for `alice`. -/
def aliceSub : LedgerRecord :=
  ⟨7, 1, "PLN_1", "SUB_1", .active, 50, "GHS", 10, 1000, none, none⟩

/-- Store fixture: one premium user with one active ledger record. -/
def db0 : DB := ⟨[alice], [aliceSub]⟩

/-- Free-user fixture. -/
def aliceFree : User :=
  ⟨1, "a@x.com", "user", freeSnap, true, none, none, true, none⟩

/-- Store fixture: one free user, empty ledger. -/
def dbF : DB := ⟨[aliceFree], []⟩

/-- Deactivated-user fixture (`isActive = false`). -/
def bobInactive : User :=
  ⟨2, "b@x.com", "user", freeSnap, true, none, none, false, none⟩

/-- Store fixture around the deactivated user. -/
def dbInactive : DB := ⟨[bobInactive], []⟩

/-- A subscription-tagged `charge.success` for an existing user always
leaves that user's snapshot status at premium, for any delivery time. -/
theorem chargeSuccess_sets_premium (t : Nat) (c : ChargeData) (db : DB) (u : User)
    (hmeta : c.metadataSubscription = true)
    (h : findOneUserByEmail db c.customerEmail = some u) :
    (findOneUserByEmail (processWebhook t (.chargeSuccess c) db).1 c.customerEmail).map
      (fun w => w.subscription.status) = some .premium := by
  have hch1 : (processWebhook t (.chargeSuccess c) db).1
      = saveUser db { u with subscription := { u.subscription with status := .premium } } :=
    congrArg Prod.fst (handleChargeSuccess_premium c db u hmeta h)
  rw [hch1, findOneUserByEmail_saveUser db c.customerEmail u
    { u with subscription := { u.subscription with status := .premium } } h rfl rfl]
  rfl

/-- Claim C1 counterexample: with one premium user and one active ledger
record, processing `subscription.disable` (payload timestamp 100) leaves
the snapshot at `free`, not `cancelled`, and then processing a
`charge.success` whose payload timestamp 50 precedes the disable event
sets it to `premium`.  The status required by the claim, `CANCELLED`,
holds at neither point: the stale event does overwrite the newer state. -/
theorem stale_charge_after_disable_regresses_to_premium :
    (findOneUserByEmail
        (processWebhook 200 (.chargeSuccess ⟨"ref-2", "a@x.com", 5000, true, 50⟩)
          (processWebhook 100 (.subscriptionDisable ⟨"SUB_1", 100⟩) db0).1).1
        "a@x.com").map (fun w => w.subscription.status) = some .premium
    ∧ (findOneUserByEmail (processWebhook 100 (.subscriptionDisable ⟨"SUB_1", 100⟩) db0).1
        "a@x.com").map (fun w => w.subscription.status) = some .free
    ∧ UserSubStatus.premium ≠ .cancelled
    ∧ UserSubStatus.free ≠ .cancelled := by
  decide

/-- Claim C1 (amended): the webhook path has no ordering guard and the
disable handler writes `'free'`: after a `subscription.disable` event is
applied, the user snapshot status is `free` (the ledger record is
cancelled), and a subsequently delivered `charge.success` carrying
subscription metadata sets the snapshot status to `premium` whatever its
payload timestamp — in particular when that timestamp precedes the disable
event.  A received-but-stale event does overwrite the newer status. -/
theorem disable_then_charge_success_timestamp_ignored
    (now t t' : Nat) (db : DB) (d : DisableData) (c : ChargeData)
    (u : User) (s : LedgerRecord)
    (hsub : findOneSubByCode db d.subscriptionCode = some s)
    (huid : findUserById db s.user = some u)
    (hemail : findOneUserByEmail db c.customerEmail = some u)
    (hmeta : c.metadataSubscription = true)
    (_hprem : u.subscription.status = .premium) :
    ((findUserById (processWebhook now (.subscriptionDisable d) db).1 s.user).map
        (fun w => w.subscription.status) = some .free)
    ∧ ((findOneUserByEmail
          (processWebhook t (.chargeSuccess { c with paidAt := t' })
            (processWebhook now (.subscriptionDisable d) db).1).1
          c.customerEmail).map (fun w => w.subscription.status) = some .premium) := by
  have hdis : processWebhook now (.subscriptionDisable d) db =
      (saveUser (saveSub db { s with status := .cancelled })
         { u with subscription := { u.subscription with status := .free, autoRenew := false } },
       ⟨1, 1⟩) := handleSubscriptionDisable_eq d db s u hsub huid
  have hfree1 : findUserById (processWebhook now (.subscriptionDisable d) db).1 s.user
      = some { u with subscription :=
                { u.subscription with status := .free, autoRenew := false } } := by
    rw [hdis]
    exact findUserById_saveUser _ _ u _ (by rw [findUserById_saveSub]; exact huid) rfl
  have hfree2 : findOneUserByEmail (processWebhook now (.subscriptionDisable d) db).1
        c.customerEmail
      = some { u with subscription :=
                { u.subscription with status := .free, autoRenew := false } } := by
    rw [hdis]
    exact findOneUserByEmail_saveUser _ _ u _
      (by rw [findOneUserByEmail_saveSub]; exact hemail) rfl rfl
  exact ⟨by rw [hfree1]; rfl,
    chargeSuccess_sets_premium t { c with paidAt := t' } _ _ hmeta hfree2⟩

/-- Claim C1 witness: the amended theorem applied to the concrete premium
user and active ledger record, with the charge timestamp 50 preceding the
disable timestamp 100. -/
theorem disable_then_charge_success_timestamp_ignored_witness :
    ((findUserById (processWebhook 100 (.subscriptionDisable ⟨"SUB_1", 100⟩) db0).1 1).map
        (fun w => w.subscription.status) = some .free)
    ∧ ((findOneUserByEmail
          (processWebhook 200 (.chargeSuccess ⟨"ref-2", "a@x.com", 5000, true, 50⟩)
            (processWebhook 100 (.subscriptionDisable ⟨"SUB_1", 100⟩) db0).1).1
          "a@x.com").map (fun w => w.subscription.status) = some .premium) :=
  disable_then_charge_success_timestamp_ignored 100 200 50 db0 ⟨"SUB_1", 100⟩
    ⟨"ref-2", "a@x.com", 5000, true, 77⟩ alice aliceSub
    (by decide) (by decide) (by decide) rfl rfl

/-- One unfolding step of `processWebhookN`. -/
theorem processWebhookN_succ (now : Nat) (e : WebhookEvent) (db : DB) (n : Nat) :
    processWebhookN now e db (n + 1)
      = ((processWebhookN now e (processWebhook now e db).1 n).1,
         ⟨(processWebhook now e db).2.userSaves
            + (processWebhookN now e (processWebhook now e db).1 n).2.userSaves,
          (processWebhook now e db).2.ledgerSaves
            + (processWebhookN now e (processWebhook now e db).1 n).2.ledgerSaves⟩) := rfl

/-- Write counts of `n` identical `subscription.create` deliveries for an
existing user: `n` user-snapshot saves and `0` ledger writes. -/
theorem processWebhookN_create_writes (now : Nat) (d : SubCreateData) :
    ∀ (n : Nat) (db : DB) (u : User),
      findOneUserByEmail db d.customerEmail = some u →
      (processWebhookN now (.subscriptionCreate d) db n).2 = ⟨n, 0⟩ := by
  intro n
  induction n with
  | zero => intro db u _; rfl
  | succ n ih =>
      intro db u h
      have hstep : processWebhook now (.subscriptionCreate d) db
          = (saveUser db { u with subscription := subCreateSnapshot now d }, ⟨1, 0⟩) :=
        handleSubscriptionCreate_eq now d db u h
      have hfind1 := findOneUserByEmail_saveUser db d.customerEmail u
        { u with subscription := subCreateSnapshot now d } h rfl rfl
      have hw := ih _ _ hfind1
      rw [processWebhookN_succ, hstep]
      dsimp only
      rw [hw]
      simp [Nat.add_comm]

/-- After `n` identical `subscription.create` deliveries the email lookup
still finds a user, at premium once `n ≥ 1` and unchanged when `n = 0`. -/
theorem processWebhookN_create_status (now : Nat) (d : SubCreateData) :
    ∀ (n : Nat) (db : DB) (u : User),
      findOneUserByEmail db d.customerEmail = some u →
      ∃ v, findOneUserByEmail (processWebhookN now (.subscriptionCreate d) db n).1
             d.customerEmail = some v
        ∧ (1 ≤ n → v.subscription.status = .premium) ∧ (n = 0 → v = u) := by
  intro n
  induction n with
  | zero => intro db u h; exact ⟨u, h, by omega, fun _ => rfl⟩
  | succ n ih =>
      intro db u h
      have hstep : processWebhook now (.subscriptionCreate d) db
          = (saveUser db { u with subscription := subCreateSnapshot now d }, ⟨1, 0⟩) :=
        handleSubscriptionCreate_eq now d db u h
      have hfind1 := findOneUserByEmail_saveUser db d.customerEmail u
        { u with subscription := subCreateSnapshot now d } h rfl rfl
      obtain ⟨v, hv, hvp, hv0⟩ := ih _ _ hfind1
      refine ⟨v, ?_, fun _ => ?_, by omega⟩
      · rw [processWebhookN_succ]
        show findOneUserByEmail
            (processWebhookN now (.subscriptionCreate d)
              (processWebhook now (.subscriptionCreate d) db).1 n).1 d.customerEmail = some v
        rw [hstep]
        exact hv
      · rcases Nat.eq_zero_or_pos n with h0 | h1
        · rw [hv0 h0]; rfl
        · exact hvp h1

/-- Claim C2 counterexample: two identical `subscription.create` deliveries
for an existing free user perform 2 user-snapshot writes and 0 ledger
writes — not the claimed exactly-one transition plus exactly-one ledger
write with the second delivery an `IdempotentNoop`; no idempotency marker
or `IdempotentNoop` acknowledgement exists on this path. -/
theorem duplicate_delivery_not_deduplicated :
    (processWebhookN 0 (.subscriptionCreate ⟨"a@x.com", "monthly", "SUB_2", 999, 5⟩) dbF 2).2
      = ⟨2, 0⟩
    ∧ (2 : Nat) ≠ 1 ∧ (0 : Nat) ≠ 1 := by
  decide

/-- Claim C2 (amended): there is no idempotency marker and no
`IdempotentNoop`: every delivery re-runs the handler.  Delivering the same
`subscription.create` payload `n` times for an existing user performs `n`
user-snapshot writes and `0` ledger writes; the snapshot value ends at
premium from the first delivery on (re-application is value-idempotent),
but each of the `n` deliveries is a real write, not a no-op. -/
theorem webhook_redelivery_reapplies_handler (now : Nat) (d : SubCreateData)
    (n : Nat) (db : DB) (u : User)
    (h : findOneUserByEmail db d.customerEmail = some u) :
    (processWebhookN now (.subscriptionCreate d) db n).2 = ⟨n, 0⟩
    ∧ (1 ≤ n →
        (findOneUserByEmail (processWebhookN now (.subscriptionCreate d) db n).1
            d.customerEmail).map (fun w => w.subscription.status) = some .premium) := by
  refine ⟨processWebhookN_create_writes now d n db u h, fun hn => ?_⟩
  obtain ⟨v, hv, hvp, _⟩ := processWebhookN_create_status now d n db u h
  rw [hv]
  simp [hvp hn]

/-- Claim C2 witness: the amended theorem at three deliveries of a concrete
payload to the concrete free-user store. -/
theorem webhook_redelivery_reapplies_handler_witness :
    (processWebhookN 0 (.subscriptionCreate ⟨"a@x.com", "monthly", "SUB_2", 999, 5⟩) dbF 3).2
      = ⟨3, 0⟩
    ∧ (1 ≤ 3 →
        (findOneUserByEmail
            (processWebhookN 0 (.subscriptionCreate ⟨"a@x.com", "monthly", "SUB_2", 999, 5⟩)
              dbF 3).1 "a@x.com").map (fun w => w.subscription.status) = some .premium) :=
  webhook_redelivery_reapplies_handler 0 ⟨"a@x.com", "monthly", "SUB_2", 999, 5⟩ 3 dbF
    aliceFree (by decide)

/-- Claim C5 counterexample: for a premium user, processing an
`invoice.payment_failed` event changes nothing — the status stays
`premium`, it does not become `PAST_DUE`; indeed the user schema's status
enum has only `free`, `premium` and `cancelled`, so no `PAST_DUE` state
exists at all. -/
theorem payment_failed_leaves_premium_concrete :
    (processWebhook 100 (.invoicePaymentFailed ⟨"a@x.com", "SUB_1"⟩) db0).1 = db0
    ∧ (findOneUserByEmail db0 "a@x.com").map (fun w => w.subscription.status) = some .premium
    ∧ (∀ st : UserSubStatus, st = .free ∨ st = .premium ∨ st = .cancelled) := by
  refine ⟨by decide, by decide, ?_⟩
  intro st
  cases st <;> simp

/-- Claim C5 (amended): `handlePaymentFailed` only logs: processing an
`invoice.payment_failed` event is a no-op on the persisted state — no user
snapshot or ledger transition happens, and the user model has no
`PAST_DUE` status value. -/
theorem payment_failed_event_noop (now : Nat) (d : FailData) (db : DB) :
    processWebhook now (.invoicePaymentFailed d) db = (db, ⟨0, 0⟩) := rfl

/-- Claim C4 counterexample: for the premium user with an active ledger
record, the provider `subscription.disable` handler sets the ledger record
to cancelled but the user snapshot to `free`, not to the `CANCELLED` the
claim requires for both records. -/
theorem provider_disable_sets_snapshot_free :
    (findOneUserByEmail (processWebhook 100 (.subscriptionDisable ⟨"SUB_1", 50⟩) db0).1
        "a@x.com").map (fun w => w.subscription.status) = some .free
    ∧ (findOneSubByCode (processWebhook 100 (.subscriptionDisable ⟨"SUB_1", 50⟩) db0).1
        "SUB_1").map (fun s => s.status) = some .cancelled
    ∧ UserSubStatus.free ≠ .cancelled := by
  decide

/-- Claim C4 (amended): of the two cancellation paths, only the
authenticated user-cancel writes `cancelled` to both records: for a
premium user, `cancelSubscription` sets the ledger record to cancelled
(with `cancelledAt`) and the user snapshot status to cancelled with
`autoRenew = false`; the provider `subscription.disable` handler sets the
ledger record to cancelled but writes `free` to the user snapshot. -/
theorem cancel_paths_ledger_and_snapshot :
    (∀ (now uid : Nat) (db : DB) (s : LedgerRecord) (u : User),
      findOneActiveSubByUser db uid = some s →
      findUserById db uid = some u →
      u.subscription.status = .premium →
      cancelSubscription true true true now uid db
        = (.ok (), saveUser (saveSub db (cancelledLedger now s)) (cancelledUserSnap u))
      ∧ (cancelledLedger now s).status = .cancelled
      ∧ (cancelledUserSnap u).subscription.status = .cancelled)
    ∧ (∀ (d : DisableData) (db : DB) (s : LedgerRecord) (u : User),
      findOneSubByCode db d.subscriptionCode = some s →
      findUserById db s.user = some u →
      u.subscription.status = .premium →
      (handleSubscriptionDisable d db).1
        = saveUser (saveSub db { s with status := .cancelled })
            { u with subscription :=
                { u.subscription with status := .free, autoRenew := false } }
      ∧ ({ s with status := LedgerStatus.cancelled }).status = .cancelled
      ∧ ({ u with subscription :=
            { u.subscription with status := UserSubStatus.free, autoRenew := false }
          }).subscription.status = .free) := by
  constructor
  · intro now uid db s u hs hu _
    refine ⟨?_, rfl, rfl⟩
    simp [cancelSubscription, hs, findUserById_saveSub, hu]
  · intro d db s u hs hu _
    exact ⟨congrArg Prod.fst (handleSubscriptionDisable_eq d db s u hs hu), rfl, rfl⟩

/-- Claim C4 witness: both parts of the amended theorem at the concrete
premium user and active ledger record. -/
theorem cancel_paths_ledger_and_snapshot_witness :
    (cancelSubscription true true true 500 1 db0
        = (.ok (), saveUser (saveSub db0 (cancelledLedger 500 aliceSub)) (cancelledUserSnap alice))
      ∧ (cancelledLedger 500 aliceSub).status = .cancelled
      ∧ (cancelledUserSnap alice).subscription.status = .cancelled)
    ∧ ((handleSubscriptionDisable ⟨"SUB_1", 50⟩ db0).1
        = saveUser (saveSub db0 { aliceSub with status := .cancelled })
            { alice with subscription :=
                { alice.subscription with status := .free, autoRenew := false } }
      ∧ ({ aliceSub with status := LedgerStatus.cancelled }).status = .cancelled
      ∧ ({ alice with subscription :=
            { alice.subscription with status := UserSubStatus.free, autoRenew := false }
          }).subscription.status = .free) :=
  ⟨cancel_paths_ledger_and_snapshot.1 500 1 db0 aliceSub alice (by decide) (by decide) rfl,
   cancel_paths_ledger_and_snapshot.2 ⟨"SUB_1", 50⟩ db0 aliceSub alice
     (by decide) (by decide) rfl⟩

/-- Claim C7 counterexample: `subscribeUser` with the ledger create failing
after the snapshot save reports an error yet leaves the snapshot at
premium while the ledger is unchanged — the records are not restored to
their prior consistent state, one is updated and the other not. -/
theorem subscribe_failure_leaves_snapshot_written :
    (subscribeUser true true false ⟨"monthly", 5000, "GHS", "SUB_9", 10, 999⟩ 3 1 "PLN_9" dbF).1
      = .error "Subscription failed"
    ∧ (subscribeUser true true false ⟨"monthly", 5000, "GHS", "SUB_9", 10, 999⟩ 3 1 "PLN_9" dbF).2
      ≠ dbF
    ∧ (findOneUserByEmail
        (subscribeUser true true false ⟨"monthly", 5000, "GHS", "SUB_9", 10, 999⟩ 3 1 "PLN_9"
          dbF).2 "a@x.com").map (fun w => w.subscription.status) = some .premium
    ∧ (subscribeUser true true false ⟨"monthly", 5000, "GHS", "SUB_9", 10, 999⟩ 3 1 "PLN_9"
        dbF).2.subs = dbF.subs := by
  decide

/-- Claim C7 (amended): the ledger+snapshot writes are sequential and
untransacted, so a failure after the first write leaves it applied: in
`subscribeUser`, a ledger-create failure after the snapshot save ends with
the snapshot at premium and the ledger untouched; in `cancelSubscription`,
a snapshot-save failure after the ledger save ends with the ledger
cancelled and the snapshot untouched.  Only a failure before the first
write leaves both records at their prior state. -/
theorem multi_write_failures_keep_earlier_writes :
    (∀ (resp : GatewaySubResp) (newId uid : Nat) (planCode : String) (db : DB) (u : User),
      findUserById db uid = some u →
      subscribeUser true true false resp newId uid planCode db
        = (.error "Subscription failed",
           saveUser db { u with subscription := subscribeSnapshot resp })
      ∧ (saveUser db { u with subscription := subscribeSnapshot resp }).subs = db.subs)
    ∧ (∀ (now uid : Nat) (db : DB) (s : LedgerRecord) (u : User),
      findOneActiveSubByUser db uid = some s →
      findUserById db uid = some u →
      cancelSubscription true true false now uid db
        = (.error "Failed to cancel subscription", saveSub db (cancelledLedger now s))
      ∧ (saveSub db (cancelledLedger now s)).users = db.users) := by
  constructor
  · intro resp newId uid planCode db u hu
    exact ⟨by simp [subscribeUser, hu], rfl⟩
  · intro now uid db s u hs hu
    exact ⟨by simp [cancelSubscription, hs, findUserById_saveSub, hu], rfl⟩

/-- Claim C7 witness: both failure modes at concrete stores. -/
theorem multi_write_failures_keep_earlier_writes_witness :
    (subscribeUser true true false ⟨"monthly", 5000, "GHS", "SUB_9", 10, 999⟩ 3 1 "PLN_9" dbF
        = (.error "Subscription failed",
           saveUser dbF
             { aliceFree with subscription := subscribeSnapshot ⟨"monthly", 5000, "GHS", "SUB_9", 10, 999⟩ })
      ∧ (saveUser dbF
          { aliceFree with subscription := subscribeSnapshot ⟨"monthly", 5000, "GHS", "SUB_9", 10, 999⟩ }).subs
        = dbF.subs)
    ∧ (cancelSubscription true true false 500 1 db0
        = (.error "Failed to cancel subscription", saveSub db0 (cancelledLedger 500 aliceSub))
      ∧ (saveSub db0 (cancelledLedger 500 aliceSub)).users = db0.users) :=
  ⟨multi_write_failures_keep_earlier_writes.1 ⟨"monthly", 5000, "GHS", "SUB_9", 10, 999⟩
     3 1 "PLN_9" dbF aliceFree (by decide),
   multi_write_failures_keep_earlier_writes.2 500 1 db0 aliceSub alice (by decide) (by decide)⟩

/-- Claim C3 counterexample: two webhook requests whose signature header
does not equal the keyed hash over the exact raw body bytes are not
rejected with `SignatureError`: a malformed body (`not-json`) is rejected
by the JSON body parser before any signature handling, and a body carrying
a trailing space relative to its canonical serialization — which
`JSON.parse` accepts — is fully processed with a state change, because the
code hashes `JSON.stringify` of the parsed body, not the raw bytes. -/
theorem signature_mismatch_not_always_signature_error :
    (webhookHandle "sk" 100 ⟨"not-json", none, ⟨"zz", "zz"⟩⟩ db0 = (.badRequestParse, db0)
      ∧ Digest.mk "zz" "zz" ≠ hmacSHA512 "sk" "not-json"
      ∧ WebhookOutcome.badRequestParse ≠ .signatureError)
    ∧ ((webhookHandle "sk" 100
          ⟨stringifyPayload (.subscriptionDisable ⟨"SUB_1", 100⟩) ++ " ",
           some (.subscriptionDisable ⟨"SUB_1", 100⟩),
           hmacSHA512 "sk" (stringifyPayload (.subscriptionDisable ⟨"SUB_1", 100⟩))⟩ db0).1
        = .processedOk
      ∧ hmacSHA512 "sk" (stringifyPayload (.subscriptionDisable ⟨"SUB_1", 100⟩))
        ≠ hmacSHA512 "sk" (stringifyPayload (.subscriptionDisable ⟨"SUB_1", 100⟩) ++ " ")
      ∧ (webhookHandle "sk" 100
          ⟨stringifyPayload (.subscriptionDisable ⟨"SUB_1", 100⟩) ++ " ",
           some (.subscriptionDisable ⟨"SUB_1", 100⟩),
           hmacSHA512 "sk" (stringifyPayload (.subscriptionDisable ⟨"SUB_1", 100⟩))⟩ db0).2
        ≠ db0) := by
  decide

/-- Claim C3 (amended): verification happens after JSON body parsing and is
computed over `JSON.stringify` of the parsed body, compared with plain
string equality: for every request whose body parses, a signature header
differing from that recomputed digest is rejected with `SignatureError`
with no user or ledger state change and nothing processed — which covers a
mutated payload and a wrong secret, the ideal hash making
collision-freeness explicit.  Malformed bodies are rejected by the parser
instead, and the exact raw body bytes are never what is hashed. -/
theorem parsed_signature_mismatch_rejected (secret : String) (now : Nat)
    (req : WebhookRequest) (db : DB) (p : WebhookEvent)
    (hp : req.parsed = some p)
    (hsig : hmacSHA512 secret (stringifyPayload p) ≠ req.sig) :
    webhookHandle secret now req db = (.signatureError, db) := by
  simp [webhookHandle, hp, verifyWebhook, beq_iff_eq, hsig]

/-- Claim C3 witness: a concrete parsed request with a wrong signature is
rejected with `SignatureError` and the store is unchanged. -/
theorem parsed_signature_mismatch_rejected_witness :
    webhookHandle "sk" 100 ⟨"raw", some (.unrecognized "x"), ⟨"bad", "bad"⟩⟩ db0
      = (.signatureError, db0) :=
  parsed_signature_mismatch_rejected "sk" 100 ⟨"raw", some (.unrecognized "x"), ⟨"bad", "bad"⟩⟩
    db0 (.unrecognized "x") rfl (by decide)

/-- Claim C6: a refresh request whose presented token decodes to a user id
but is not byte-equal to the Session Cache entry for that id — including
the case of no entry at all, as after a logout or an overwriting later
login — is rejected with the 401 authentication error (`'Invalid refresh
token'`), before any user lookup or token minting. -/
theorem refresh_mismatch_fails_closed (jv : String → Option Nat) (sa : User → String)
    (db : DB) (c : Cache) (tok : String) (uid : Nat)
    (hdec : jv tok = some uid)
    (hmis : getRefreshToken uid c ≠ some tok) :
    (refreshTokenController jv sa db c (some tok)).1 = .invalidRefresh401 := by
  simp only [refreshTokenController, hdec]
  cases hc : getRefreshToken uid c with
  | none => rfl
  | some s =>
      have hne : s ≠ tok := fun h => hmis (by rw [hc, h])
      simp [hne]

/-- Claim C6 witness: the cache holds a different token for user 1 than
the one presented; the refresh is rejected 401. -/
theorem refresh_mismatch_fails_closed_witness :
    (refreshTokenController (fun _ => some 1) (fun _ => "newAccess") db0
        (fun i => if i = 1 then some "storedTok" else none) (some "presentedTok")).1
      = .invalidRefresh401 :=
  refresh_mismatch_fails_closed (fun _ => some 1) (fun _ => "newAccess") db0
    (fun i => if i = 1 then some "storedTok" else none) "presentedTok" 1 rfl (by decide)

/-- Claim C9: no rotation-on-use — the refresh handler never writes the
Session Cache: the cache after any refresh call equals the cache before;
after a successful refresh the presented token is still byte-equal to the
cached entry for the decoded id and the identical call yields the same
success again; the entry changes only when a later login overwrites the
slot or a logout removes it. -/
theorem refresh_preserves_session_cache :
    (∀ (jv : String → Option Nat) (sa : User → String) (db : DB) (c : Cache)
        (b : Option String), (refreshTokenController jv sa db c b).2 = c)
    ∧ (∀ (jv : String → Option Nat) (sa : User → String) (db : DB) (c : Cache)
        (tok a : String) (uid : Nat),
      jv tok = some uid →
      (refreshTokenController jv sa db c (some tok)).1 = .ok a →
      getRefreshToken uid c = some tok
      ∧ refreshTokenController jv sa db c (some tok) = (.ok a, c))
    ∧ (∀ (uid : Nat) (newTok : String) (c : Cache),
      getRefreshToken uid (loginStoresToken uid newTok c) = some newTok
      ∧ getRefreshToken uid (logoutController uid c) = none) := by
  have hframe : ∀ (jv : String → Option Nat) (sa : User → String) (db : DB) (c : Cache)
      (b : Option String), (refreshTokenController jv sa db c b).2 = c := by
    intro jv sa db c b
    rcases b with _ | tok
    · rfl
    · rcases hj : jv tok with _ | uid
      · simp [refreshTokenController, hj]
      · rcases hc : getRefreshToken uid c with _ | s
        · simp [refreshTokenController, hj, hc]
        · by_cases hst : s = tok
          · rcases hf : findUserById db uid with _ | u
            · simp [refreshTokenController, hj, hc, hst, hf]
            · simp [refreshTokenController, hj, hc, hst, hf]
          · simp [refreshTokenController, hj, hc, hst]
  refine ⟨hframe, ?_, ?_⟩
  · intro jv sa db c tok a uid hjv hok
    have hcached : getRefreshToken uid c = some tok := by
      rcases hc : getRefreshToken uid c with _ | s
      · exfalso
        simp [refreshTokenController, hjv, hc] at hok
      · by_cases hst : s = tok
        · rw [hst]
        · exfalso
          simp [refreshTokenController, hjv, hc, hst] at hok
    exact ⟨hcached, Prod.ext hok (hframe jv sa db c (some tok))⟩
  · intro uid newTok c
    constructor
    · simp [getRefreshToken, loginStoresToken, storeRefreshToken]
    · simp [getRefreshToken, logoutController, removeRefreshToken]

/-- Claim C9 witness: a successful concrete refresh leaves the cache
function unchanged, the cached entry still equals the presented token,
and the call's full result is the minted access token with that cache. -/
theorem refresh_preserves_session_cache_witness :
    (refreshTokenController (fun _ => some 1) (fun _ => "acc") db0
        (fun i => if i = 1 then some "rt" else none) (some "rt")).2
      = (fun i => if i = 1 then some "rt" else none)
    ∧ getRefreshToken 1 (fun i => if i = 1 then some "rt" else none) = some "rt"
    ∧ refreshTokenController (fun _ => some 1) (fun _ => "acc") db0
        (fun i => if i = 1 then some "rt" else none) (some "rt")
      = (.ok "acc", fun i => if i = 1 then some "rt" else none) :=
  ⟨refresh_preserves_session_cache.1 (fun _ => some 1) (fun _ => "acc") db0
     (fun i => if i = 1 then some "rt" else none) (some "rt"),
   (refresh_preserves_session_cache.2.1 (fun _ => some 1) (fun _ => "acc") db0
      (fun i => if i = 1 then some "rt" else none) "rt" "acc" 1 rfl (by decide)).1,
   (refresh_preserves_session_cache.2.1 (fun _ => some 1) (fun _ => "acc") db0
      (fun i => if i = 1 then some "rt" else none) "rt" "acc" 1 rfl (by decide)).2⟩

/-- Claim C10: a cryptographically valid access token for an existing but
deactivated user (`isActive = false`) is rejected 401 by `protect` with
the store untouched, while `optionalAuth` attaches that very deactivated
user to the request and proceeds — it performs no `isActive` check. -/
theorem deactivated_user_protect_vs_optional_auth
    (jv : String → Option Nat) (now : Nat) (db : DB) (h : Option String)
    (tok : String) (uid : Nat) (u : User)
    (hex : extractBearer h = some tok)
    (hjv : jv tok = some uid)
    (hu : findUserById db uid = some u)
    (hinact : u.isActive = false) :
    protect jv now db h = (.deactivated401, db)
    ∧ optionalAuth jv db h = some u := by
  constructor
  · simp [protect, hex, hjv, hu, hinact]
  · simp [optionalAuth, hex, hjv, hu]

/-- Claim C10 witness: the deactivated concrete user with a valid bearer
token: `protect` rejects 401, `optionalAuth` attaches the user. -/
theorem deactivated_user_protect_vs_optional_auth_witness :
    protect (fun _ => some 2) 999 dbInactive (some "Bearer tok2")
      = (.deactivated401, dbInactive)
    ∧ optionalAuth (fun _ => some 2) dbInactive (some "Bearer tok2") = some bobInactive :=
  deactivated_user_protect_vs_optional_auth (fun _ => some 2) 999 dbInactive
    (some "Bearer tok2") "tok2" 2 bobInactive (by decide) rfl (by decide) rfl

/-- If every element of the prefix fails the filter and `a` passes it, the
scan of `pre ++ a :: post` returns `a`. -/
theorem find?_append_first {α : Type} (q : α → Bool) (a : α) :
    ∀ (pre : List α), (∀ x ∈ pre, q x = false) → q a = true →
      ∀ post : List α, (pre ++ a :: post).find? q = some a := by
  intro pre
  induction pre with
  | nil =>
      intro _ hqa post
      exact List.find?_cons_of_pos post hqa
  | cons x t ih =>
      intro hpre hqa post
      have hx : q x = false := hpre x (by simp)
      rw [List.cons_append, List.find?_cons_of_neg _ (by simp [hx])]
      exact ih (fun y hy => hpre y (by simp [hy])) hqa post

/-- Claim C8: email-verification token round trip: generation returns the
random cleartext and stores only its sha256 hash on the user with a
24-hour expiry; presenting the returned cleartext to `verifyEmail` before
that expiry (no earlier-stored user matching the filter) re-hashes it,
matches the stored hash, sets `emailVerified = true` and clears the stored
hash and expiry. -/
theorem email_verification_round_trip (sha256 : String → String) (randHex : String)
    (t0 t1 : Nat) (u : User) (pre post : List User) (subs : List LedgerRecord)
    (hfresh : ∀ v ∈ pre, verifyEmailMatch (sha256 randHex) t1 v = false)
    (hexp : t1 < t0 + 24 * 60 * 60 * 1000) :
    (generateEmailVerificationToken sha256 randHex t0 u).1 = randHex
    ∧ (generateEmailVerificationToken sha256 randHex t0 u).2.emailVerificationToken
      = some (sha256 randHex)
    ∧ (generateEmailVerificationToken sha256 randHex t0 u).2.emailVerificationExpire
      = some (t0 + 24 * 60 * 60 * 1000)
    ∧ verifyEmail sha256 t1 randHex
        ⟨pre ++ (generateEmailVerificationToken sha256 randHex t0 u).2 :: post, subs⟩
      = (.ok,
         saveUser ⟨pre ++ (generateEmailVerificationToken sha256 randHex t0 u).2 :: post, subs⟩
           { (generateEmailVerificationToken sha256 randHex t0 u).2 with
              emailVerified := true
              emailVerificationToken := none
              emailVerificationExpire := none }) := by
  refine ⟨rfl, rfl, rfl, ?_⟩
  have hq : verifyEmailMatch (sha256 randHex) t1
      (generateEmailVerificationToken sha256 randHex t0 u).2 = true := by
    simp [verifyEmailMatch, generateEmailVerificationToken, hexp]
  have hfind : (pre ++ (generateEmailVerificationToken sha256 randHex t0 u).2 :: post).find?
        (verifyEmailMatch (sha256 randHex) t1)
      = some (generateEmailVerificationToken sha256 randHex t0 u).2 :=
    find?_append_first _ _ pre hfresh hq post
  simp only [verifyEmail]
  rw [hfind]

/-- Claim C8 witness: the round trip at a concrete user, the identity
function standing in for the universally quantified hash. -/
theorem email_verification_round_trip_witness :
    (generateEmailVerificationToken (fun s => s) "tok" 0 aliceFree).1 = "tok"
    ∧ (generateEmailVerificationToken (fun s => s) "tok" 0 aliceFree).2.emailVerificationToken
      = some "tok"
    ∧ (generateEmailVerificationToken (fun s => s) "tok" 0 aliceFree).2.emailVerificationExpire
      = some (0 + 24 * 60 * 60 * 1000)
    ∧ verifyEmail (fun s => s) 5 "tok"
        ⟨[] ++ (generateEmailVerificationToken (fun s => s) "tok" 0 aliceFree).2 :: [], []⟩
      = (.ok,
         saveUser ⟨[] ++ (generateEmailVerificationToken (fun s => s) "tok" 0 aliceFree).2 :: [], []⟩
           { (generateEmailVerificationToken (fun s => s) "tok" 0 aliceFree).2 with
              emailVerified := true
              emailVerificationToken := none
              emailVerificationExpire := none }) :=
  email_verification_round_trip (fun s => s) "tok" 0 5 aliceFree [] [] []
    (by simp) (by decide)

end RecipeBE
